import Mathlib

/-!
# Verification of the declaration-level parser (`runtime/parser2/declaration.go`)

A shallow embedding of the declaration parser of the Cadence front end.
Go functions become Lean functions; the mutable parser cursor (`p.current`,
`p.next()`) becomes explicit state passing over a token list; Go panics
become `Except.error` values.  External collaborators (the expression,
type-annotation and parameter-list sub-parsers, the string-literal decoder,
and the function-declaration parser, none of which are part of this file's
source) are passed in as a record of functions, so every theorem below
quantifies over their behavior.
-/

namespace Parser2

/-- Source coordinate, mirroring `ast.Position` (offset, line, column). -/
structure Position where
  offset : Nat
  line : Nat
  column : Nat
deriving DecidableEq, Repr

/-- Modelled from the spec: positions are shifted along a line when computing
the end of an identifier's span (`ast.Position.Shifted`). -/
def Position.shifted (p : Position) (n : Nat) : Position :=
  { offset := p.offset + n, line := p.line, column := p.column + n }

/-- Token kinds used by the declaration parser, mirroring `lexer.TokenType`.
`other` stands for the remaining token kinds of the lexer, which this parser
only ever compares for equality. -/
inductive TokenType where
  | identifier
  | stringLit
  | hexadecimalLiteral
  | comma
  | colon
  | parenOpen
  | parenClose
  | equal
  | leftArrow
  | leftArrowExclamation
  | semicolon
  | space
  | eof
  | braceClose
  | other (n : Nat)
deriving DecidableEq, Repr

/-- A lexer token: kind, string payload (the parser only reads string
payloads of identifier/string/hexadecimal tokens), and source span. -/
structure Token where
  type : TokenType
  value : String
  startPos : Position
  endPos : Position
deriving DecidableEq, Repr

/-- The token returned by the cursor once the underlying list is exhausted. -/
def eofToken : Token :=
  { type := .eof, value := "", startPos := ⟨0, 0, 0⟩, endPos := ⟨0, 0, 0⟩ }

/-- Parser state: the remaining token stream plus the accumulated soft
diagnostics (`p.report`). -/
structure PState where
  tokens : List Token
  reported : List String
deriving DecidableEq, Repr

/-- `p.current`: the token under the cursor (an EOF token once exhausted). -/
def PState.current (s : PState) : Token :=
  s.tokens.headD eofToken

/-- `p.next()`: advance the cursor by one token. -/
def PState.next (s : PState) : PState :=
  { s with tokens := s.tokens.tail }

/-- `p.report(errs...)`: append soft diagnostics. -/
def PState.report (s : PState) (errs : List String) : PState :=
  { s with reported := s.reported ++ errs }

/-- Modelled from the spec: `p.skipSpaceAndComments(true)` consumes the
whitespace/comment tokens between meaningful tokens; comments are handled by
the external lexer and are represented here as `space` tokens. -/
def skipSpace (s : PState) : PState :=
  { s with tokens := s.tokens.dropWhile (fun t => t.type = .space) }

-- Keyword constants recognized by the declaration parser (`keyword.go`).

def keywordLet : String := "let"
def keywordVar : String := "var"
def keywordFun : String := "fun"
def keywordImport : String := "import"
def keywordFrom : String := "from"
def keywordEvent : String := "event"
def keywordPriv : String := "priv"
def keywordPub : String := "pub"
def keywordAccess : String := "access"
def keywordAll : String := "all"
def keywordAccount : String := "account"
def keywordContract : String := "contract"
def keywordSelf : String := "self"
def keywordSet : String := "set"

/-- `ast.Identifier`. -/
structure Identifier where
  identifier : String
  pos : Position
deriving DecidableEq, Repr

/-- Modelled from the spec: `ast.Identifier.EndPosition` — an identifier's
span ends `length - 1` columns after its start position. -/
def Identifier.endPosition (i : Identifier) : Position :=
  i.pos.shifted (i.identifier.length - 1)

/-- `tokenToIdentifier`: build an `ast.Identifier` from an identifier token. -/
def tokenToIdentifier (t : Token) : Identifier :=
  { identifier := t.value, pos := t.startPos }

/-- `ast.Range`. -/
structure Range where
  startPos : Position
  endPos : Position
deriving DecidableEq, Repr

/-- `ast.TransferOperation`, with `unknown` the zero value. -/
inductive TransferOperation where
  | unknown
  | copy
  | move
  | moveForced
deriving DecidableEq, Repr

/-- `ast.Transfer`. -/
structure Transfer where
  operation : TransferOperation
  pos : Position
deriving DecidableEq, Repr

/-- `ast.Access`. -/
inductive Access where
  | notSpecified
  | privateAccess
  | publicAccess
  | publicSettable
  | account
  | contract
deriving DecidableEq, Repr

/-- Opaque node produced by the external expression parser. -/
structure Expr where
  raw : Nat
deriving DecidableEq, Repr

/-- Opaque node produced by the external type-annotation parser
(`ast.TypeAnnotation`). -/
structure TypeAnn where
  raw : Nat
deriving DecidableEq, Repr

/-- Node produced by the external parameter-list parser: the declaration
parser reads only its start/end positions; the list's content is opaque. -/
structure ParameterList where
  startPos : Position
  endPos : Position
  raw : Nat
deriving DecidableEq, Repr

/-- Import location (`ast.Location`): a string location or an address
location (raw byte sequence, each byte a `Nat < 256`).  The identifier
location variant is not yet implemented in the source. -/
inductive Location where
  | stringLocation (s : String)
  | addressLocation (bytes : List Nat)
deriving DecidableEq, Repr

/-- `ast.VariableDeclaration`.  `transfer` mirrors the Go pointer field
`*ast.Transfer`, hence the `Option`. -/
structure VariableDeclaration where
  access : Access
  isConstant : Bool
  identifier : Identifier
  typeAnn : Option TypeAnn
  value : Expr
  transfer : Option Transfer
  startPos : Position
  secondTransfer : Option Transfer
  secondValue : Option Expr
deriving DecidableEq, Repr

/-- `ast.ImportDeclaration`.  `location` mirrors the Go interface field
`ast.Location`, which is `nil` when unset. -/
structure ImportDeclaration where
  identifiers : List Identifier
  location : Option Location
  range : Range
  locationPos : Position
deriving DecidableEq, Repr

/-- The fields of `ast.FunctionDeclaration` the event parser touches; the
synthesized initializer sets only the parameter list and start position, and
leaves the function block (`body`) absent. -/
structure FunctionDeclaration where
  parameterList : ParameterList
  startPos : Position
  functionBlock : Option Nat
deriving DecidableEq, Repr

/-- `common.DeclarationKind` values relevant here. -/
inductive DeclarationKind where
  | init
  | field
  | function
deriving DecidableEq, Repr

/-- `ast.SpecialFunctionDeclaration`. -/
structure SpecialFunctionDeclaration where
  declarationKind : DeclarationKind
  functionDeclaration : FunctionDeclaration
deriving DecidableEq, Repr

/-- The member lists of `ast.Members` relevant to this parser; the event
parser populates only `specialFunctions` and leaves the others empty. -/
structure Members where
  fields : List Nat
  functions : List Nat
  specialFunctions : List SpecialFunctionDeclaration
deriving DecidableEq, Repr

/-- `common.CompositeKind` values. -/
inductive CompositeKind where
  | event
  | structKind
  | resourceKind
  | contractKind
deriving DecidableEq, Repr

/-- `ast.CompositeDeclaration`. -/
structure CompositeDeclaration where
  access : Access
  compositeKind : CompositeKind
  identifier : Identifier
  members : Members
  range : Range
deriving DecidableEq, Repr

/-- `ast.Declaration` (sum over the node kinds this parser can return;
`functionDecl` carries the node built by the external function parser as an
opaque payload). -/
inductive Declaration where
  | variable (v : VariableDeclaration)
  | importDecl (d : ImportDeclaration)
  | composite (c : CompositeDeclaration)
  | functionDecl (raw : Nat)
deriving DecidableEq, Repr

/-- The fatal errors (Go panics) this parser can raise, one constructor per
`panic` site in the source, plus `outOfFuel` for the recursion budget of the
embedding and `externalError` for errors raised inside external
sub-parsers. -/
inductive ParseError where
  | outOfFuel
  | unreachable
  | unexpectedAccessModifier
  | expectedKeywordSet (got : TokenType)
  | expectedKeywordSetValue (got : String)
  | expectedAccessKeyword (got : TokenType)
  | expectedAccessKeywordValue (got : String)
  | expectedToken (expected got : TokenType)
  | expectedIdentifierAfterVariableStart (got : TokenType)
  | expectedTransfer
  | expectedIdentifierAfterEventStart (got : TokenType)
  | unexpectedTokenInImportLocation (got : TokenType)
  | unexpectedEndInImport
  | expectedIdentifierOrFrom (got : TokenType)
  | expectedIdentifierGotFrom
  | unexpectedEndInImportList
  | expectedFromOrComma (got : TokenType)
  | unexpectedIdentifierInImport (got : String)
  | hexDecodeFailure
  | externalError (n : Nat)
deriving DecidableEq, Repr

/-- The external sub-parsers this file delegates to (expression,
type-annotation, parameter-list and function-declaration parsing, and
string-literal decoding).  They are collaborators outside the verified
source, so they are taken as arbitrary functions. -/
structure Subparsers where
  parseExpression : Nat → PState → Except ParseError (Expr × PState)
  parseTypeAnn : PState → Except ParseError (TypeAnn × PState)
  parseParameterList : PState → Except ParseError (ParameterList × PState)
  parseStringLiteral : String → String × List String
  parseFunctionDeclaration : Access → Option Position → PState → Except ParseError (Declaration × PState)

/-- The lowest binding power the expression parser is seeded with. -/
def lowestBindingPower : Nat := 0

/-- Modelled from the spec: `p.mustOne(tokenType)` — require the current
token to be of the given kind (a fatal error otherwise), consume it and
return it. -/
def mustOne (t : TokenType) (s : PState) : Except ParseError (Token × PState) :=
  if s.current.type = t then .ok (s.current, s.next)
  else .error (.expectedToken t s.current.type)

/-- The value of one hexadecimal digit character (`encoding/hex` accepts
`0`-`9`, `a`-`f`, `A`-`F`). -/
def hexDigitValue (c : Char) : Option Nat :=
  if '0' ≤ c ∧ c ≤ '9' then some (c.toNat - '0'.toNat)
  else if 'a' ≤ c ∧ c ≤ 'f' then some (c.toNat - 'a'.toNat + 10)
  else if 'A' ≤ c ∧ c ≤ 'F' then some (c.toNat - 'A'.toNat + 10)
  else none

/-- `hex.Decode`: decode pairs of hexadecimal digit characters into bytes;
`none` on an odd-length input or a non-digit character. -/
def hexDecodeChars : List Char → Option (List Nat)
  | [] => some []
  | [_] => none
  | a :: b :: rest =>
    match hexDigitValue a, hexDigitValue b, hexDecodeChars rest with
    | some hi, some lo, some tail => some ((hi * 16 + lo) :: tail)
    | _, _, _ => none

/-- `parseHexadecimalLocation`: strip the two-character `0x` prefix, remove
all `_` separators, left-pad with one `'0'` if the digit count is odd, and
hex-decode the result into the address bytes.  The decode-failure error
models the function's `panic(err)`, documented unreachable for lexer-produced
literals. -/
def parseHexadecimalLocation (literal : String) : Except ParseError (List Nat) :=
  let bytes := ((literal.drop 2).toList).filter (fun c => c ≠ '_')
  let bytes := if bytes.length % 2 = 1 then '0' :: bytes else bytes
  match hexDecodeChars bytes with
  | some address => .ok address
  | none => .error .hexDecodeFailure

/-- `parseTransfer`: map `=`/`<-`/`<-!` to a transfer (consuming the token);
any other token yields `none` without consuming input. -/
def parseTransfer (s : PState) : Option Transfer × PState :=
  let operation : TransferOperation :=
    match s.current.type with
    | .equal => .copy
    | .leftArrow => .move
    | .leftArrowExclamation => .moveForced
    | _ => .unknown
  if operation = .unknown then (none, s)
  else (some { operation := operation, pos := s.current.startPos }, s.next)

/-- `parseAccess`: parse `priv`, `pub` (`(set)`)?, or
`access(all|account|contract|self)`. -/
def parseAccess (s : PState) : Except ParseError (Access × PState) :=
  if s.current.value = keywordPriv then
    .ok (.privateAccess, s.next)
  else if s.current.value = keywordPub then
    let s := skipSpace s.next
    if s.current.type ≠ .parenOpen then
      .ok (.publicAccess, s)
    else
      let s := skipSpace s.next
      if s.current.type ≠ .identifier then
        .error (.expectedKeywordSet s.current.type)
      else if s.current.value ≠ keywordSet then
        .error (.expectedKeywordSetValue s.current.value)
      else
        let s := skipSpace s.next
        match mustOne .parenClose s with
        | .error e => .error e
        | .ok (_, s) => .ok (.publicSettable, s)
  else if s.current.value = keywordAccess then
    let s := skipSpace s.next
    match mustOne .parenOpen s with
    | .error e => .error e
    | .ok (_, s) =>
      let s := skipSpace s
      if s.current.type ≠ .identifier then
        .error (.expectedAccessKeyword s.current.type)
      else
        let acc? : Option Access :=
          if s.current.value = keywordAll then some .publicAccess
          else if s.current.value = keywordAccount then some .account
          else if s.current.value = keywordContract then some .contract
          else if s.current.value = keywordSelf then some .privateAccess
          else none
        match acc? with
        | none => .error (.expectedAccessKeywordValue s.current.value)
        | some access =>
          let s := skipSpace s.next
          match mustOne .parenClose s with
          | .error e => .error e
          | .ok (_, s) => .ok (access, s)
  else
    .error .unreachable

/-- The tail of `parseVariableDeclaration`, from the point right after the
identifier and optional type annotation: mandatory transfer, first value
expression, optional second transfer with then-mandatory second value. -/
def parseVariableDeclarationTail (E : Subparsers) (access : Access) (isLet : Bool)
    (identifier : Identifier) (typeAnn : Option TypeAnn) (startPos : Position)
    (s : PState) : Except ParseError (VariableDeclaration × PState) :=
  let s := skipSpace s
  match parseTransfer s with
  | (none, _) => .error .expectedTransfer
  | (some transfer, s) =>
    match E.parseExpression lowestBindingPower s with
    | .error e => .error e
    | .ok (value, s) =>
      let s := skipSpace s
      match parseTransfer s with
      | (some secondTransfer, s) =>
        match E.parseExpression lowestBindingPower s with
        | .error e => .error e
        | .ok (secondValue, s) =>
          .ok ({ access := access, isConstant := isLet, identifier := identifier,
                 typeAnn := typeAnn, value := value, transfer := some transfer,
                 startPos := startPos, secondTransfer := some secondTransfer,
                 secondValue := some secondValue }, s)
      | (none, s) =>
        .ok ({ access := access, isConstant := isLet, identifier := identifier,
               typeAnn := typeAnn, value := value, transfer := some transfer,
               startPos := startPos, secondTransfer := none,
               secondValue := none }, s)

/-- `parseVariableDeclaration`:
`(let|var) identifier (: typeAnnotation)? transfer expression (transfer expression)?`. -/
def parseVariableDeclaration (E : Subparsers) (access : Access)
    (accessPos : Option Position) (s : PState) :
    Except ParseError (VariableDeclaration × PState) :=
  let startPos := accessPos.getD s.current.startPos
  let isLet := s.current.value = keywordLet
  -- Skip the `let` or `var` keyword
  let s := skipSpace s.next
  if s.current.type ≠ .identifier then
    .error (.expectedIdentifierAfterVariableStart s.current.type)
  else
    let identifier := tokenToIdentifier s.current
    let s := skipSpace s.next
    if s.current.type = .colon then
      let s := skipSpace s.next
      match E.parseTypeAnn s with
      | .error e => .error e
      | .ok (ta, s) =>
        parseVariableDeclarationTail E access isLet identifier (some ta) startPos s
    else
      parseVariableDeclarationTail E access isLet identifier none startPos s

/-- The `parseStringOrAddressLocation` closure of `parseImportDeclaration`:
decode a string or hexadecimal location literal, returning the location and
its source span, consuming the literal token. -/
def parseStringOrAddressLocation (E : Subparsers) (s : PState) :
    Except ParseError (Location × Position × Position × PState) :=
  let locationPos := s.current.startPos
  let endPos := s.current.endPos
  if s.current.type = .stringLit then
    let (parsedString, errs) := E.parseStringLiteral s.current.value
    let s := s.report errs
    .ok (.stringLocation parsedString, locationPos, endPos, s.next)
  else if s.current.type = .hexadecimalLiteral then
    match parseHexadecimalLocation s.current.value with
    | .error e => .error e
    | .ok address => .ok (.addressLocation address, locationPos, endPos, s.next)
  else
    .error .unreachable

/-- The `parseLocation` closure of `parseImportDeclaration`: only string and
hexadecimal literals are accepted (the identifier-location case is disabled
in the source). -/
def parseLocation (E : Subparsers) (s : PState) :
    Except ParseError (Location × Position × Position × PState) :=
  if s.current.type = .stringLit ∨ s.current.type = .hexadecimalLiteral then
    parseStringOrAddressLocation E s
  else
    .error (.unexpectedTokenInImportLocation s.current.type)

/-- The `parseMoreIdentifiers` closure of `parseImportDeclaration`: the loop
toggling between expecting an identifier and expecting a comma or `from`;
each iteration starts by consuming the token that triggered the previous
step.  `fuel` bounds the recursion of the embedding (the loop consumes at
least one token per iteration, so the caller's budget always suffices). -/
def parseMoreIdentifiers (E : Subparsers) (fuel : Nat) (expectCommaOrFrom : Bool)
    (acc : List Identifier) (s : PState) :
    Except ParseError (List Identifier × Location × Position × Position × PState) :=
  match fuel with
  | 0 => .error .outOfFuel
  | fuel + 1 =>
    let s := skipSpace s.next
    if s.current.type = .comma then
      if expectCommaOrFrom then
        parseMoreIdentifiers E fuel false acc s
      else
        .error (.expectedIdentifierOrFrom s.current.type)
    else if s.current.type = .identifier then
      if s.current.value = keywordFrom then
        if expectCommaOrFrom then
          let s := skipSpace s.next
          match parseLocation E s with
          | .error e => .error e
          | .ok (loc, locationPos, endPos, s) => .ok (acc, loc, locationPos, endPos, s)
        else
          .error .expectedIdentifierGotFrom
      else
        parseMoreIdentifiers E fuel true (acc ++ [tokenToIdentifier s.current]) s
    else if s.current.type = .eof then
      .error .unexpectedEndInImportList
    else
      .error (.expectedFromOrComma s.current.type)

/-- `parseImportDeclaration`:
`import ( identifier (, identifier)* from )? ( string | hexadecimalLiteral | identifier )`.
The `setIdentifierLocation` path (a lone identifier followed by end-of-input)
sets only the location span — the location value itself is left absent,
because the identifier-location constructor is commented out in the source. -/
def parseImportDeclaration (E : Subparsers) (s : PState) :
    Except ParseError (ImportDeclaration × PState) :=
  let startPosition := s.current.startPos
  -- Skip the `import` keyword
  let s := skipSpace s.next
  if s.current.type = .stringLit ∨ s.current.type = .hexadecimalLiteral then
    match parseStringOrAddressLocation E s with
    | .error e => .error e
    | .ok (loc, locationPos, endPos, s) =>
      .ok ({ identifiers := [], location := some loc,
             range := { startPos := startPosition, endPos := endPos },
             locationPos := locationPos }, s)
  else if s.current.type = .identifier then
    let identifier := tokenToIdentifier s.current
    let s2 := skipSpace s.next
    if s2.current.type = .comma then
      -- The previous identifier is an imported identifier, not the location
      match parseMoreIdentifiers E (s2.tokens.length + 1) false [identifier] s2 with
      | .error e => .error e
      | .ok (ids, loc, locationPos, endPos, s3) =>
        .ok ({ identifiers := ids, location := some loc,
               range := { startPos := startPosition, endPos := endPos },
               locationPos := locationPos }, s3)
    else if s2.current.type = .identifier then
      -- `maybeParseFromIdentifier`
      if s2.current.value = keywordFrom then
        let s3 := skipSpace s2.next
        match parseLocation E s3 with
        | .error e => .error e
        | .ok (loc, locationPos, endPos, s4) =>
          .ok ({ identifiers := [identifier], location := some loc,
                 range := { startPos := startPosition, endPos := endPos },
                 locationPos := locationPos }, s4)
      else
        .error (.unexpectedIdentifierInImport s2.current.value)
    else if s2.current.type = .eof then
      -- `setIdentifierLocation identifier`
      .ok ({ identifiers := [], location := none,
             range := { startPos := startPosition, endPos := identifier.endPosition },
             locationPos := identifier.pos }, s2)
    else
      .error (.expectedFromOrComma s2.current.type)
  else if s.current.type = .eof then
    .error .unexpectedEndInImport
  else
    .error (.unexpectedTokenInImportLocation s.current.type)

/-- `parseEventDeclaration`: `event identifier parameterList`, desugared to a
composite declaration of event kind whose only member is a synthesized
initializer special-function carrying the parsed parameter list and no
function body. -/
def parseEventDeclaration (E : Subparsers) (access : Access)
    (accessPos : Option Position) (s : PState) :
    Except ParseError (CompositeDeclaration × PState) :=
  let startPos := accessPos.getD s.current.startPos
  -- Skip the `event` keyword
  let s := skipSpace s.next
  if s.current.type ≠ .identifier then
    .error (.expectedIdentifierAfterEventStart s.current.type)
  else
    let identifier : Identifier :=
      { identifier := s.current.value, pos := s.current.startPos }
    let s := s.next
    match E.parseParameterList s with
    | .error e => .error e
    | .ok (parameterList, s) =>
      .ok ({ access := access, compositeKind := .event, identifier := identifier,
             members :=
               { fields := [], functions := [],
                 specialFunctions :=
                   [{ declarationKind := .init,
                      functionDeclaration :=
                        { parameterList := parameterList,
                          startPos := parameterList.startPos,
                          functionBlock := none } }] },
             range := { startPos := startPos, endPos := parameterList.endPos } }, s)

/-- The body of `parseDeclaration`'s loop: dispatch on the current keyword;
an access modifier is recorded and the loop re-entered, a second access
modifier is a fatal error, and an unrecognized token yields "no declaration"
(`none`).  `fuel` bounds the loop of the embedding. -/
def parseDeclarationAux (E : Subparsers) (fuel : Nat) (access : Access)
    (accessPos : Option Position) (s : PState) :
    Except ParseError (Option Declaration × PState) :=
  match fuel with
  | 0 => .error .outOfFuel
  | fuel + 1 =>
    let s := skipSpace s
    if s.current.type = .identifier then
      if s.current.value = keywordLet ∨ s.current.value = keywordVar then
        match parseVariableDeclaration E access accessPos s with
        | .error e => .error e
        | .ok (v, s') => .ok (some (.variable v), s')
      else if s.current.value = keywordFun then
        match E.parseFunctionDeclaration access accessPos s with
        | .error e => .error e
        | .ok (d, s') => .ok (some d, s')
      else if s.current.value = keywordImport then
        match parseImportDeclaration E s with
        | .error e => .error e
        | .ok (d, s') => .ok (some (.importDecl d), s')
      else if s.current.value = keywordEvent then
        match parseEventDeclaration E access accessPos s with
        | .error e => .error e
        | .ok (c, s') => .ok (some (.composite c), s')
      else if s.current.value = keywordPriv ∨ s.current.value = keywordPub ∨
          s.current.value = keywordAccess then
        if access ≠ Access.notSpecified then
          .error .unexpectedAccessModifier
        else
          let pos := s.current.startPos
          match parseAccess s with
          | .error e => .error e
          | .ok (a, s') => parseDeclarationAux E fuel a (some pos) s'
      else
        .ok (none, s)
    else
      .ok (none, s)

/-- `parseDeclaration`: parse a single declaration, starting with no access
modifier recorded.  The loop consumes at least one token per access-modifier
iteration, so the token count bounds it. -/
def parseDeclaration (E : Subparsers) (s : PState) :
    Except ParseError (Option Declaration × PState) :=
  parseDeclarationAux E (s.tokens.length + 1) Access.notSpecified none s

/-- `parseDeclarations`: the declaration-list loop — skip separators, stop at
the end token or end-of-input, stop when the single-declaration parser yields
no declaration, and otherwise accumulate declarations in source order.
`fuel` bounds the loop of the embedding. -/
def parseDeclarations (E : Subparsers) (fuel : Nat) (endTokenType : TokenType)
    (s : PState) : Except ParseError (List Declaration × PState) :=
  match fuel with
  | 0 => .error .outOfFuel
  | fuel + 1 =>
    let s := skipSpace s
    if s.current.type = .semicolon then
      parseDeclarations E fuel endTokenType s.next
    else if s.current.type = endTokenType ∨ s.current.type = .eof then
      .ok ([], s)
    else
      match parseDeclaration E s with
      | .error e => .error e
      | .ok (none, s') => .ok ([], s')
      | .ok (some d, s') =>
        match parseDeclarations E fuel endTokenType s' with
        | .error e => .error e
        | .ok (ds, s'') => .ok (d :: ds, s'')

/-! ## Concrete fixtures for witnesses -/

/-- A one-line token with the given kind, value and offset span. -/
def tok (ty : TokenType) (v : String) (a b : Nat) : Token :=
  { type := ty, value := v, startPos := ⟨a, 1, a⟩, endPos := ⟨b, 1, b⟩ }

/-- A concrete instantiation of the external sub-parsers, used only to
evaluate theorems on closed inputs: each sub-parser consumes exactly one
token and packages its offset (or text) into the returned node. -/
def testSubparsers : Subparsers where
  parseExpression := fun _ s => .ok ({ raw := s.current.startPos.offset }, s.next)
  parseTypeAnn := fun s => .ok ({ raw := s.current.startPos.offset }, s.next)
  parseParameterList := fun s =>
    .ok ({ startPos := s.current.startPos, endPos := s.current.endPos, raw := 0 }, s.next)
  parseStringLiteral := fun str => (str, [])
  parseFunctionDeclaration := fun _ _ s => .ok (.functionDecl 0, s.next)

/-- Token stream for `import foo` followed by end-of-input. -/
def importIdentStream : PState :=
  { tokens := [tok .identifier "import" 0 5, tok .space " " 6 6,
               tok .identifier "foo" 7 9, tok .eof "" 10 10],
    reported := [] }

/-- Token stream for `let x = 1`. -/
def letStream : PState :=
  { tokens := [tok .identifier "let" 0 2, tok .space " " 3 3,
               tok .identifier "x" 4 4, tok .space " " 5 5,
               tok .equal "=" 6 6, tok .space " " 7 7,
               tok (.other 0) "1" 8 8, tok .eof "" 9 9],
    reported := [] }

/-- Token stream for `pub priv` (two consecutive access modifiers). -/
def doubleAccessStream : PState :=
  { tokens := [tok .identifier "pub" 0 2, tok .space " " 3 3,
               tok .identifier "priv" 4 7, tok .eof "" 8 8],
    reported := [] }

/-- Token stream for `pub foo`: an access modifier consumed, then a token
that is no declaration keyword, so the single-declaration parser yields no
declaration. -/
def pubFooStream : PState :=
  { tokens := [tok .identifier "pub" 0 2, tok .space " " 3 3,
               tok .identifier "foo" 4 6, tok .eof "" 7 7],
    reported := [] }

/-- Token stream for `import 0x1 ; pub pub`: one parses, then a fatal
error. -/
def importThenErrorStream : PState :=
  { tokens := [tok .identifier "import" 0 5, tok .space " " 6 6,
               tok .hexadecimalLiteral "0x1" 7 9, tok .space " " 10 10,
               tok .semicolon ";" 11 11, tok .space " " 12 12,
               tok .identifier "pub" 13 15, tok .space " " 16 16,
               tok .identifier "pub" 17 19, tok .eof "" 20 20],
    reported := [] }

/-- Token stream for `event Foo ()` (the parenthesis pair standing in for the
parameter list consumed by the external sub-parser). -/
def eventStream : PState :=
  { tokens := [tok .identifier "event" 0 4, tok .space " " 5 5,
               tok .identifier "Foo" 6 8, tok (.other 1) "()" 9 10,
               tok .eof "" 11 11],
    reported := [] }

/-! ## Spec-side definitions -/

/-- Follows the spec's wording for hexadecimal import-location decoding:
strip the two-character prefix, remove the `_` digit separators, left-pad
with a single `'0'` digit if the remaining digit count is odd, and decode the
padded digit string into a raw byte sequence. -/
def specHexAddressBytes (literal : String) : Option (List Nat) :=
  let digits := (literal.toList.drop 2).filter (fun c => c ≠ '_')
  let padded := if digits.length % 2 = 1 then '0' :: digits else digits
  hexDecodeChars padded

/-! ## Helper lemmas -/

/-- If the current token after skipping space is not the EOF fallback, then
the stream is non-empty. -/
theorem tokens_ne_nil_of_skip_identifier {s : PState}
    (h : (skipSpace s).current.type = .identifier) : s.tokens ≠ [] := by
  intro hnil
  simp [skipSpace, PState.current, hnil, eofToken] at h

/-- `parseAccess` never returns the `notSpecified` access. -/
theorem parseAccess_ne_notSpecified {s s' : PState} {a : Access}
    (h : parseAccess s = .ok (a, s')) : a ≠ Access.notSpecified := by
  rintro rfl
  unfold parseAccess at h
  dsimp only at h
  repeat' split at h
  all_goals simp_all
  rename_i hIf hClose
  repeat' split at hIf
  all_goals simp_all

/-- The result of the hexadecimal-decode match is `ok` exactly on a
successful decode. -/
theorem hexDecode_match_ok (o : Option (List Nat)) (bytes : List Nat) :
    (match o with
     | some address => (Except.ok address : Except ParseError (List Nat))
     | none => Except.error ParseError.hexDecodeFailure) = .ok bytes ↔
      o = some bytes := by
  cases o <;> simp

/-! ## C7 — transfer-operator parsing -/

/-- C7: Transfer-operator parsing maps an `=` token to Copy, `<-` to Move and
`<-!` to MoveForced, consuming exactly that one token, and on every other
current token yields the absent sentinel (`none`) consuming zero tokens. -/
theorem parseTransfer_cases (s : PState) :
    parseTransfer s =
      match s.current.type with
      | .equal => (some { operation := .copy, pos := s.current.startPos }, s.next)
      | .leftArrow => (some { operation := .move, pos := s.current.startPos }, s.next)
      | .leftArrowExclamation =>
          (some { operation := .moveForced, pos := s.current.startPos }, s.next)
      | _ => (none, s) := by
  cases h : s.current.type <;> simp [parseTransfer, h]

/-! ## C3 — hexadecimal location decoding -/

/-- C3: The address bytes of a hexadecimal import location are exactly the
hex-decoding of the literal after stripping the two-character prefix,
removing `_` separators and left-padding one `'0'` on an odd digit count; in
particular `0x1` decodes to `[0x01]` and `0xA_B` to `[0xAB]`. -/
theorem parseHexadecimalLocation_spec :
    (∀ literal bytes, parseHexadecimalLocation literal = .ok bytes ↔
        specHexAddressBytes literal = some bytes)
    ∧ parseHexadecimalLocation "0x1" = .ok [0x01]
    ∧ parseHexadecimalLocation "0xA_B" = .ok [0xAB] := by
  refine ⟨fun literal bytes => ?_, by rfl, by rfl⟩
  have hdata : (literal.drop 2).toList = literal.toList.drop 2 :=
    String.data_drop literal 2
  unfold parseHexadecimalLocation specHexAddressBytes
  rw [hdata]
  exact hexDecode_match_ok _ _

/-! ## C2 — import of a lone identifier followed by end-of-input -/

/-- C2: On `import`, one identifier, then end-of-input, the import parser
returns normally with an empty identifiers list and an absent (`none`)
location; only the declaration range and the location position are set, both
spanning the identifier's source positions. -/
theorem parseImportDeclaration_identifierEOF (E : Subparsers) (s : PState)
    (h1 : (skipSpace s.next).current.type = .identifier)
    (h2 : (skipSpace (skipSpace s.next).next).current.type = .eof) :
    parseImportDeclaration E s =
      .ok ({ identifiers := [],
             location := none,
             range := { startPos := s.current.startPos,
                        endPos := (tokenToIdentifier (skipSpace s.next).current).endPosition },
             locationPos := (skipSpace s.next).current.startPos },
           skipSpace (skipSpace s.next).next) := by
  simp [parseImportDeclaration, h1, h2, tokenToIdentifier]

/-- Witness for C2: the concrete stream `import foo`⟨eof⟩. -/
theorem parseImportDeclaration_identifierEOF_witness :
    parseImportDeclaration testSubparsers importIdentStream =
      .ok ({ identifiers := [],
             location := none,
             range := { startPos := importIdentStream.current.startPos,
                        endPos := (tokenToIdentifier
                          (skipSpace importIdentStream.next).current).endPosition },
             locationPos := (skipSpace importIdentStream.next).current.startPos },
           skipSpace (skipSpace importIdentStream.next).next) :=
  parseImportDeclaration_identifierEOF testSubparsers importIdentStream rfl rfl

/-! ## C1 — the lone identifier is *not* stored as the import's location -/

/-- Counterexample for C1: on the concrete stream `import foo`⟨eof⟩ the
returned declaration's `location` field is `none` — the leading identifier is
not made the import's location (the identifier-location constructor is
commented out in the source), refuting the claim that the declaration's
location is derived from that identifier. -/
theorem importIdentifierEOF_location_counterexample :
    parseImportDeclaration testSubparsers importIdentStream =
      .ok ({ identifiers := [],
             location := none,
             range := { startPos := ⟨0, 1, 0⟩, endPos := ⟨9, 1, 9⟩ },
             locationPos := ⟨7, 1, 7⟩ },
           { tokens := [tok .eof "" 10 10], reported := [] }) := by
  rfl

/-- C1 (amended): on `import`, one identifier, then end-of-input, the parser
returns normally with an empty identifiers list, the location field left
absent, and only the location position and declaration end derived from that
identifier's source span. -/
theorem importIdentifierEOF_reserved_path (E : Subparsers) (s : PState)
    (h1 : (skipSpace s.next).current.type = .identifier)
    (h2 : (skipSpace (skipSpace s.next).next).current.type = .eof) :
    ∀ d s', parseImportDeclaration E s = .ok (d, s') →
      d.identifiers = [] ∧ d.location = none
        ∧ d.locationPos = (skipSpace s.next).current.startPos
        ∧ d.range.endPos =
            (tokenToIdentifier (skipSpace s.next).current).endPosition := by
  intro d s' h
  simp [parseImportDeclaration, h1, h2, tokenToIdentifier] at h
  obtain ⟨hd, -⟩ := h
  subst hd
  simp [tokenToIdentifier]

/-- Witness for the amended C1, at the concrete stream `import foo`⟨eof⟩. -/
theorem importIdentifierEOF_reserved_path_witness :
    ({ identifiers := [], location := none,
       range := { startPos := ⟨0, 1, 0⟩, endPos := ⟨9, 1, 9⟩ },
       locationPos := ⟨7, 1, 7⟩ } : ImportDeclaration).identifiers = []
    ∧ ({ identifiers := [], location := none,
         range := { startPos := ⟨0, 1, 0⟩, endPos := ⟨9, 1, 9⟩ },
         locationPos := ⟨7, 1, 7⟩ } : ImportDeclaration).location = none := by
  have h := importIdentifierEOF_reserved_path testSubparsers importIdentStream rfl rfl
      { identifiers := [], location := none,
        range := { startPos := ⟨0, 1, 0⟩, endPos := ⟨9, 1, 9⟩ },
        locationPos := ⟨7, 1, 7⟩ }
      { tokens := [tok .eof "" 10 10], reported := [] }
      (by rfl)
  exact ⟨h.1, h.2.1⟩

/-! ## C10 — event declarations desugar to a composite with one initializer -/

/-- C10: A successfully parsed event declaration is a composite declaration
of event kind carrying the recorded access modifier, whose member list holds
exactly one synthesized initializer special-function and nothing else; that
initializer's parameter list is the parsed parameter list and it has no
function body. -/
theorem parseEventDeclaration_desugar (E : Subparsers) (access : Access)
    (accessPos : Option Position) (s : PState) (pl : ParameterList) (s₃ : PState)
    (h1 : (skipSpace s.next).current.type = .identifier)
    (h2 : E.parseParameterList ((skipSpace s.next).next) = .ok (pl, s₃)) :
    parseEventDeclaration E access accessPos s =
      .ok ({ access := access, compositeKind := .event,
             identifier := { identifier := (skipSpace s.next).current.value,
                             pos := (skipSpace s.next).current.startPos },
             members :=
               { fields := [], functions := [],
                 specialFunctions :=
                   [{ declarationKind := .init,
                      functionDeclaration :=
                        { parameterList := pl, startPos := pl.startPos,
                          functionBlock := none } }] },
             range := { startPos := accessPos.getD s.current.startPos,
                        endPos := pl.endPos } }, s₃) := by
  simp [parseEventDeclaration, h1, h2]

/-- Witness for C10: `access(all)`-style Public access recorded, then
`event Foo ()` on the concrete stream. -/
theorem parseEventDeclaration_desugar_witness :
    parseEventDeclaration testSubparsers Access.publicAccess none eventStream =
      .ok ({ access := Access.publicAccess, compositeKind := .event,
             identifier := { identifier := (skipSpace eventStream.next).current.value,
                             pos := (skipSpace eventStream.next).current.startPos },
             members :=
               { fields := [], functions := [],
                 specialFunctions :=
                   [{ declarationKind := .init,
                      functionDeclaration :=
                        { parameterList := { startPos := ⟨9, 1, 9⟩,
                                             endPos := ⟨10, 1, 10⟩, raw := 0 },
                          startPos := ⟨9, 1, 9⟩,
                          functionBlock := none } }] },
             range := { startPos := (none : Option Position).getD
                          eventStream.current.startPos,
                        endPos := ⟨10, 1, 10⟩ } },
           { tokens := [tok .eof "" 11 11], reported := [] }) :=
  parseEventDeclaration_desugar testSubparsers Access.publicAccess none eventStream
    { startPos := ⟨9, 1, 9⟩, endPos := ⟨10, 1, 10⟩, raw := 0 }
    { tokens := [tok .eof "" 11 11], reported := [] } rfl rfl

/-! ## C4 — the dispatcher stops when no declaration is recognized -/

/-- C4: Whenever the single-declaration parser yields "no declaration", the
declaration-list loop stops at once, returning exactly the state the
single-declaration parser left — no further input is consumed (this includes
states in which access-modifier tokens were already consumed for the
would-be declaration). -/
theorem parseDeclarations_stops_on_none (E : Subparsers) (fuel : Nat)
    (endTokenType : TokenType) (s s' : PState)
    (h1 : (skipSpace s).current.type ≠ .semicolon)
    (h2 : (skipSpace s).current.type ≠ endTokenType)
    (h3 : (skipSpace s).current.type ≠ .eof)
    (h4 : parseDeclaration E (skipSpace s) = .ok (none, s')) :
    parseDeclarations E (fuel + 1) endTokenType s = .ok ([], s') := by
  simp [parseDeclarations, h1, h2, h3, h4]

/-- Witness for C4: on `pub foo` the single-declaration parser consumes the
access modifier, finds no declaration keyword, and the loop stops with the
cursor still on `foo`. -/
theorem parseDeclarations_stops_on_none_witness :
    parseDeclarations testSubparsers 1 .braceClose pubFooStream =
      .ok ([], { tokens := [tok .identifier "foo" 4 6, tok .eof "" 7 7],
                 reported := [] }) :=
  parseDeclarations_stops_on_none testSubparsers 0 .braceClose pubFooStream
    { tokens := [tok .identifier "foo" 4 6, tok .eof "" 7 7], reported := [] }
    (by decide) (by decide) (by decide) (by rfl)

/-! ## C5 — a fatal error fails the whole declaration-list parse -/

/-- C5: If one declaration has already been parsed and the rest of the
declaration-list loop hits a fatal error, the whole call returns that single
error — the declaration accumulated before the failure point is not
returned. -/
theorem parseDeclarations_error_propagates (E : Subparsers) (fuel : Nat)
    (endTokenType : TokenType) (s s₁ : PState) (d : Declaration) (e : ParseError)
    (h1 : (skipSpace s).current.type ≠ .semicolon)
    (h2 : (skipSpace s).current.type ≠ endTokenType)
    (h3 : (skipSpace s).current.type ≠ .eof)
    (h4 : parseDeclaration E (skipSpace s) = .ok (some d, s₁))
    (h5 : parseDeclarations E fuel endTokenType s₁ = .error e) :
    parseDeclarations E (fuel + 1) endTokenType s = .error e := by
  simp [parseDeclarations, h1, h2, h3, h4, h5]

/-- Witness for C5: `import 0x1 ; pub pub` parses one import declaration and
then fails with "unexpected access modifier"; the whole list parse returns
only that error. -/
theorem parseDeclarations_error_propagates_witness :
    parseDeclarations testSubparsers 3 .braceClose importThenErrorStream =
      .error .unexpectedAccessModifier :=
  parseDeclarations_error_propagates testSubparsers 2 .braceClose
    importThenErrorStream
    { tokens := [tok .space " " 10 10, tok .semicolon ";" 11 11,
                 tok .space " " 12 12, tok .identifier "pub" 13 15,
                 tok .space " " 16 16, tok .identifier "pub" 17 19,
                 tok .eof "" 20 20],
      reported := [] }
    (.importDecl { identifiers := [], location := some (.addressLocation [1]),
                   range := { startPos := ⟨0, 1, 0⟩, endPos := ⟨9, 1, 9⟩ },
                   locationPos := ⟨7, 1, 7⟩ })
    .unexpectedAccessModifier
    (by decide) (by decide) (by decide) (by rfl) (by rfl)

/-! ## C6 — a second access modifier is a fatal error -/

/-- Token stream for `access priv`: two consecutive access-modifier keywords
where the first one's own grammar already rejects the second token. -/
def accessPrivStream : PState :=
  { tokens := [tok .identifier "access" 0 5, tok .space " " 6 6,
               tok .identifier "priv" 7 10, tok .eof "" 11 11],
    reported := [] }

/-- Counterexample for C6: on `access priv` — two consecutive access-modifier
keywords before any declaration keyword — the parser raises the fatal
"expected token '('" error of the `access` modifier's own grammar, not the
"unexpected access modifier" error the claim promises for every such
stream. -/
theorem parseDeclaration_access_priv_counterexample :
    parseDeclaration testSubparsers accessPrivStream =
      .error (.expectedToken .parenOpen .identifier)
    ∧ (Except.error (ParseError.expectedToken .parenOpen .identifier) :
        Except ParseError (Option Declaration × PState)) ≠
      .error .unexpectedAccessModifier := by
  exact ⟨by rfl, by simp⟩

/-- C6 (amended): If the single-declaration parser successfully parses one
access modifier and the next meaningful token is again an access-modifier
keyword, it raises the fatal "unexpected access modifier" error.  (When the
first modifier's own grammar rejects the adjacent second keyword — e.g.
`access` immediately followed by `priv` instead of `(` — the fatal error
raised is that grammar's "expected token" error instead.) -/
theorem parseDeclaration_double_access (E : Subparsers) (s : PState)
    (a : Access) (s₂ : PState)
    (h1 : (skipSpace s).current.type = .identifier)
    (h2 : (skipSpace s).current.value = keywordPriv ∨
          (skipSpace s).current.value = keywordPub ∨
          (skipSpace s).current.value = keywordAccess)
    (h3 : parseAccess (skipSpace s) = .ok (a, s₂))
    (h4 : (skipSpace s₂).current.type = .identifier)
    (h5 : (skipSpace s₂).current.value = keywordPriv ∨
          (skipSpace s₂).current.value = keywordPub ∨
          (skipSpace s₂).current.value = keywordAccess) :
    parseDeclaration E s = .error .unexpectedAccessModifier := by
  have hne : s.tokens ≠ [] := tokens_ne_nil_of_skip_identifier h1
  obtain ⟨k, hk⟩ : ∃ k, s.tokens.length = k + 1 := by
    cases hl : s.tokens with
    | nil => exact absurd hl hne
    | cons t ts => exact ⟨ts.length, by simp [hl]⟩
  have hAne := parseAccess_ne_notSpecified h3
  unfold parseDeclaration
  rw [hk]
  rcases h2 with h2 | h2 | h2 <;> rcases h5 with h5 | h5 | h5 <;>
    simp [parseDeclarationAux, h1, h2, h3, h4, h5, hAne,
      keywordLet, keywordVar, keywordFun, keywordImport, keywordEvent,
      keywordPriv, keywordPub, keywordAccess]

/-- Witness for C6: the concrete stream `pub priv`. -/
theorem parseDeclaration_double_access_witness :
    parseDeclaration testSubparsers doubleAccessStream =
      .error .unexpectedAccessModifier :=
  parseDeclaration_double_access testSubparsers doubleAccessStream
    Access.publicAccess
    { tokens := [tok .identifier "priv" 4 7, tok .eof "" 8 8], reported := [] }
    (by rfl) (Or.inr (Or.inl (by rfl))) (by rfl) (by rfl) (Or.inl (by rfl))

/-- Token stream for `= 1` (a transfer then an initializer), used to exercise
the tail of variable-declaration parsing. -/
def transferStream : PState :=
  { tokens := [tok .equal "=" 0 0, tok (.other 0) "1" 1 1, tok .eof "" 2 2],
    reported := [] }

/-! ## C8 — the first transfer operator is mandatory -/

/-- C8: In variable-declaration parsing the transfer operator is mandatory
right after the identifier and optional type annotation: if no transfer
operator is present at that point the fatal "expected transfer" error is
raised, and every successfully returned VariableDeclaration carries a present
(non-`none`) transfer. -/
theorem parseVariableDeclaration_transfer_mandatory (E : Subparsers) (access : Access) :
    (∀ isLet ident ta startPos s,
       (parseTransfer (skipSpace s)).1 = none →
         parseVariableDeclarationTail E access isLet ident ta startPos s =
           .error .expectedTransfer)
    ∧ (∀ accessPos s v s',
         parseVariableDeclaration E access accessPos s = .ok (v, s') →
           v.transfer.isSome = true) := by
  constructor
  · intro isLet ident ta startPos s h
    rcases hp : parseTransfer (skipSpace s) with ⟨t?, s₂⟩
    rw [hp] at h
    simp at h
    subst h
    simp [parseVariableDeclarationTail, hp]
  · intro accessPos s v s' h
    unfold parseVariableDeclaration parseVariableDeclarationTail at h
    dsimp only at h
    repeat' split at h
    all_goals simp_all
    all_goals (obtain ⟨hv, -⟩ := h; subst hv; rfl)

/-- Witness for C8: at the stream `let x = 1` no transfer follows `let`
itself (so tail parsing from there reports "expected transfer"), while the
full parse of the stream yields a declaration with a present transfer. -/
theorem parseVariableDeclaration_transfer_mandatory_witness :
    parseVariableDeclarationTail testSubparsers Access.notSpecified true
        { identifier := "q", pos := ⟨0, 0, 0⟩ } none ⟨0, 0, 0⟩ letStream =
      .error .expectedTransfer
    ∧ ({ access := Access.notSpecified, isConstant := true,
         identifier := { identifier := "x", pos := ⟨4, 1, 4⟩ },
         typeAnn := none, value := { raw := 7 },
         transfer := some { operation := .copy, pos := ⟨6, 1, 6⟩ },
         startPos := ⟨0, 1, 0⟩, secondTransfer := none,
         secondValue := none } : VariableDeclaration).transfer.isSome = true :=
  ⟨(parseVariableDeclaration_transfer_mandatory testSubparsers Access.notSpecified).1
      true { identifier := "q", pos := ⟨0, 0, 0⟩ } none ⟨0, 0, 0⟩ letStream (by rfl),
   (parseVariableDeclaration_transfer_mandatory testSubparsers Access.notSpecified).2
      none letStream
      { access := Access.notSpecified, isConstant := true,
        identifier := { identifier := "x", pos := ⟨4, 1, 4⟩ },
        typeAnn := none, value := { raw := 7 },
        transfer := some { operation := .copy, pos := ⟨6, 1, 6⟩ },
        startPos := ⟨0, 1, 0⟩, secondTransfer := none, secondValue := none }
      { tokens := [tok (.other 0) "1" 8 8, tok .eof "" 9 9], reported := [] }
      (by rfl)⟩

/-! ## C9 — second transfer and second value come and go together -/

/-- C9: Every VariableDeclaration the parser returns has `secondTransfer` and
`secondValue` both present or both absent, and — characterizing the tail —
a second value expression is parsed exactly when a second transfer operator
follows the first expression. -/
theorem parseVariableDeclaration_second_pair (E : Subparsers) (access : Access) :
    (∀ accessPos s v s',
        parseVariableDeclaration E access accessPos s = .ok (v, s') →
          (v.secondTransfer.isSome ↔ v.secondValue.isSome))
    ∧ (∀ isLet ident ta startPos s t sT val s₁,
        parseTransfer (skipSpace s) = (some t, sT) →
        E.parseExpression lowestBindingPower sT = .ok (val, s₁) →
        parseVariableDeclarationTail E access isLet ident ta startPos s =
          match parseTransfer (skipSpace s₁) with
          | (some u, s₂) =>
            match E.parseExpression lowestBindingPower s₂ with
            | .error e => .error e
            | .ok (val₂, s₃) =>
              .ok ({ access := access, isConstant := isLet, identifier := ident,
                     typeAnn := ta, value := val, transfer := some t,
                     startPos := startPos, secondTransfer := some u,
                     secondValue := some val₂ }, s₃)
          | (none, s₂) =>
            .ok ({ access := access, isConstant := isLet, identifier := ident,
                   typeAnn := ta, value := val, transfer := some t,
                   startPos := startPos, secondTransfer := none,
                   secondValue := none }, s₂)) := by
  constructor
  · intro accessPos s v s' h
    unfold parseVariableDeclaration parseVariableDeclarationTail at h
    dsimp only at h
    repeat' split at h
    all_goals simp_all
    all_goals (obtain ⟨hv, -⟩ := h; subst hv; simp)
  · intro isLet ident ta startPos s t sT val s₁ h1 h2
    unfold parseVariableDeclarationTail
    dsimp only
    rw [h1]
    dsimp only
    rw [h2]

/-- Witness for C9: the parse of `let x = 1` has both second components
absent, and from the tail state `= 1` with no second transfer following, the
tail returns with `secondTransfer` and `secondValue` both `none`. -/
theorem parseVariableDeclaration_second_pair_witness :
    (({ access := Access.notSpecified, isConstant := true,
        identifier := { identifier := "x", pos := ⟨4, 1, 4⟩ },
        typeAnn := none, value := { raw := 7 },
        transfer := some { operation := .copy, pos := ⟨6, 1, 6⟩ },
        startPos := ⟨0, 1, 0⟩, secondTransfer := none,
        secondValue := none } : VariableDeclaration).secondTransfer.isSome ↔
      ({ access := Access.notSpecified, isConstant := true,
         identifier := { identifier := "x", pos := ⟨4, 1, 4⟩ },
         typeAnn := none, value := { raw := 7 },
         transfer := some { operation := .copy, pos := ⟨6, 1, 6⟩ },
         startPos := ⟨0, 1, 0⟩, secondTransfer := none,
         secondValue := none } : VariableDeclaration).secondValue.isSome)
    ∧ parseVariableDeclarationTail testSubparsers Access.notSpecified true
        { identifier := "q", pos := ⟨0, 0, 0⟩ } none ⟨0, 0, 0⟩ transferStream =
      .ok ({ access := Access.notSpecified, isConstant := true,
             identifier := { identifier := "q", pos := ⟨0, 0, 0⟩ },
             typeAnn := none, value := { raw := 1 },
             transfer := some { operation := .copy, pos := ⟨0, 1, 0⟩ },
             startPos := ⟨0, 0, 0⟩, secondTransfer := none,
             secondValue := none },
           { tokens := [tok .eof "" 2 2], reported := [] }) :=
  ⟨(parseVariableDeclaration_second_pair testSubparsers Access.notSpecified).1
      none letStream
      { access := Access.notSpecified, isConstant := true,
        identifier := { identifier := "x", pos := ⟨4, 1, 4⟩ },
        typeAnn := none, value := { raw := 7 },
        transfer := some { operation := .copy, pos := ⟨6, 1, 6⟩ },
        startPos := ⟨0, 1, 0⟩, secondTransfer := none, secondValue := none }
      { tokens := [tok (.other 0) "1" 8 8, tok .eof "" 9 9], reported := [] }
      (by rfl),
   (parseVariableDeclaration_second_pair testSubparsers Access.notSpecified).2
      true { identifier := "q", pos := ⟨0, 0, 0⟩ } none ⟨0, 0, 0⟩ transferStream
      { operation := .copy, pos := ⟨0, 1, 0⟩ }
      { tokens := [tok (.other 0) "1" 1 1, tok .eof "" 2 2], reported := [] }
      { raw := 1 }
      { tokens := [tok .eof "" 2 2], reported := [] }
      (by rfl) (by rfl)⟩

end Parser2
